import Mathlib

/-!
Verification of the resume page-fit optimizer
(`src/services/optimizer_service.py`) against its specification.

The data model mirrors `src/models/resume.py` (pydantic models embedded as
Lean structures; `skills : Dict[str, List[str]]` becomes an association
list).  The optimizer `PageOptimizer.optimize_to_one_page` is embedded as a
function parameterised by an `Env` of collaborator behaviours (the LaTeX
renderer and the Claude content reducer, both of which may fail), returning
the list of observable events (echo messages, render/reducer invocations,
artifact persistence) together with either the returned
`(resume_data, pdf_path)` pair or the exception that propagates.
-/

set_option autoImplicit false

namespace ResumeOpt

/-- `PersonalInfo` from `src/models/resume.py`. -/
structure PersonalInfo where
  name : String
  email : String
  phone : String
  linkedin : Option String
  github : Option String
  location : Option String
deriving DecidableEq, Repr

/-- `Education` from `src/models/resume.py`. -/
structure Education where
  institution : String
  location : String
  degree : String
  dates : String
  gpa : Option String
  additional_info : Option (List String)
deriving DecidableEq, Repr

/-- `Experience` from `src/models/resume.py`. -/
structure Experience where
  title : String
  company : String
  location : String
  dates : String
  bullets : List String
deriving DecidableEq, Repr

/-- `Project` from `src/models/resume.py`. -/
structure Project where
  name : String
  technologies : String
  date : String
  bullets : List String
deriving DecidableEq, Repr

/-- `ResumeData` from `src/models/resume.py`; the `skills` dict is embedded
as an association list from category name to skill strings. -/
structure ResumeData where
  personal_info : PersonalInfo
  education : List Education
  experience : List Experience
  projects : List Project
  skills : List (String × List String)
deriving DecidableEq, Repr

/-- The structural invariants enforced by the pydantic validators in
`src/models/resume.py`: at least one education entry, at least one
experience entry, at least one skills category, and every experience and
project entry has a nonempty bullet list. -/
def structuralInvariants (r : ResumeData) : Prop :=
  0 < r.education.length ∧
  0 < r.experience.length ∧
  0 < r.skills.length ∧
  (∀ e ∈ r.experience, 0 < e.bullets.length) ∧
  (∀ p ∈ r.projects, 0 < p.bullets.length)

instance (r : ResumeData) : Decidable (structuralInvariants r) := by
  unfold structuralInvariants; infer_instance

/-- `PageOptimizer._manual_content_reduction` from
`src/services/optimizer_service.py`, embedded as a pure function (the
Python code mutates `resume_data` in place and returns it).  The four
strategies are applied in source order: truncate `projects` to 2 entries,
truncate each experience entry's bullets to 3, truncate each remaining
project's bullets to 2, and clear `gpa`/`additional_info` on every
education entry after the first. -/
def manual_content_reduction (r : ResumeData) : ResumeData :=
  let projects1 :=
    if r.projects.length > 2 then r.projects.take 2 else r.projects
  let experience1 := r.experience.map (fun exp =>
    if exp.bullets.length > 3 then { exp with bullets := exp.bullets.take 3 } else exp)
  let projects2 := projects1.map (fun proj =>
    if proj.bullets.length > 2 then { proj with bullets := proj.bullets.take 2 } else proj)
  let education1 :=
    if r.education.length > 1 then
      match r.education with
      | [] => []
      | e0 :: rest =>
          e0 :: rest.map (fun edu => { edu with gpa := none, additional_info := none })
    else r.education
  { r with projects := projects2, experience := experience1, education := education1 }

/-- Observable events of one `optimize_to_one_page` call: progress messages
printed via `click.echo` (only when `verbose`), invocations of
`LaTeXService.render_and_compile`, invocations of
`ClaudeService.suggest_content_reduction`, applications of the heuristic
fallback `_manual_content_reduction`, and persistence of the final pdf/tex
artifacts on the success path. -/
inductive Event where
  | echoMsg : String → Event
  | renderCall : ResumeData → String → Event
  | aiCall : ResumeData → Nat → Event
  | heuristicCall : ResumeData → Event
  | writePdf : String → Event
  | writeTex : String → Event
deriving DecidableEq, Repr

/-- An exception escaping `optimize_to_one_page`: either an
`OptimizationError` raised by the optimizer itself (wrapping a renderer
diagnostic, or the empty-document message), or a `LaTeXCompilationError`
escaping unwrapped from the final best-effort render, which the code does
not guard with a try/except. -/
inductive OptError where
  | optimizationError : String → OptError
  | latexError : String → OptError
deriving DecidableEq, Repr

/-- Behaviour of the two injected collaborators.  `render d name` models
`LaTeXService.render_and_compile(d, name)`: it either raises (with a
diagnostic string) or returns the page count of the compiled pdf; the pdf
path it returns is always `pdfs_dir / (name ++ ".pdf")`, so only the page
count is behavioural.  `suggest i d p` models the `i`-th iteration's call
to `ClaudeService.suggest_content_reduction(d, current_pages := p,
target_pages := 1)`: it either raises or returns a reduced document. -/
structure Env where
  render : ResumeData → String → Except String Nat
  suggest : Nat → ResumeData → Nat → Except String ResumeData

/-- The pdf path produced by `LaTeXService.compile_latex` for a given
output name: `pdfs_dir / f"{output_name}.pdf"`. -/
def pdfPath (name : String) : String :=
  "output/pdfs/" ++ name ++ ".pdf"

/-- The per-iteration artifact name `f"{output_name}_attempt_{iteration}"`. -/
def attemptName (output_name : String) (iteration : Nat) : String :=
  output_name ++ "_attempt_" ++ toString iteration

/-- Conditional echo: `click.echo` output is produced only when `verbose`. -/
def echoIf (verbose : Bool) (msgs : List String) : List Event :=
  if verbose then msgs.map Event.echoMsg else []

/-- The code after the `while` loop of `optimize_to_one_page` (the
best-effort finalization): warn, re-render the current document under the
plain `output_name`, and return it.  This render is not wrapped in a
try/except, so a renderer failure here escapes as a raw
`LaTeXCompilationError`. -/
def bestEffortFinalize (env : Env) (output_name : String) (max_iterations : Nat)
    (verbose : Bool) (current_data : ResumeData) :
    List Event × Except OptError (ResumeData × String) :=
  let pre := echoIf verbose
      ["  Warning: Could not optimize to exactly 1 page after " ++
         toString max_iterations ++ " attempts",
       "  Saving best attempt..."] ++
    [Event.renderCall current_data output_name]
  match env.render current_data output_name with
  | Except.error e => (pre, Except.error (OptError.latexError e))
  | Except.ok _page_count => (pre, Except.ok (current_data, pdfPath output_name))

/-- The `while iteration < max_iterations` loop of
`PageOptimizer.optimize_to_one_page`.  `fuel` is the number of loop
iterations still allowed (`max_iterations - iteration`) and `it0` the
Python `iteration` counter before the increment at the top of the body.
Events are returned in emission order alongside the result. -/
def optimizeLoop (env : Env) (output_name : String) (max_iterations : Nat)
    (verbose : Bool) :
    Nat → Nat → ResumeData → List Event × Except OptError (ResumeData × String)
  | 0, _it0, current_data =>
      bestEffortFinalize env output_name max_iterations verbose current_data
  | fuel + 1, it0, current_data =>
      let iteration := it0 + 1
      let name := attemptName output_name iteration
      let pre := echoIf verbose
          ["  Optimization attempt " ++ toString iteration ++ "/" ++
             toString max_iterations ++ "..."] ++
        [Event.renderCall current_data name]
      match env.render current_data name with
      | Except.error e =>
          (pre, Except.error (OptError.optimizationError
            ("Failed to compile LaTeX: " ++ e)))
      | Except.ok page_count =>
          let pre := pre ++ echoIf verbose
            ["    Generated PDF with " ++ toString page_count ++ " page(s)"]
          if page_count = 1 then
            (pre ++ echoIf verbose ["  Resume fits on 1 page!"] ++
               [Event.writePdf output_name, Event.writeTex output_name],
             Except.ok (current_data, pdfPath output_name))
          else if page_count < 1 then
            (pre, Except.error (OptError.optimizationError "Resume is empty or invalid"))
          else
            let pre := pre ++ echoIf verbose
              ["    Resume is too long (" ++ toString page_count ++
                 " pages), reducing content..."]
            if fuel = 0 then
              -- `iteration >= max_iterations`: break out to best-effort finalization
              let r := bestEffortFinalize env output_name max_iterations verbose current_data
              (pre ++ r.1, r.2)
            else
              let pre := pre ++ [Event.aiCall current_data page_count]
              match env.suggest iteration current_data page_count with
              | Except.ok reduced =>
                  let r := optimizeLoop env output_name max_iterations verbose fuel iteration reduced
                  (pre ++ r.1, r.2)
              | Except.error e =>
                  let pre := pre ++ echoIf verbose
                      ["    Warning: Claude optimization failed: " ++ e] ++
                    [Event.heuristicCall current_data]
                  let r := optimizeLoop env output_name max_iterations verbose fuel iteration
                      (manual_content_reduction current_data)
                  (pre ++ r.1, r.2)

/-- `PageOptimizer.optimize_to_one_page` from
`src/services/optimizer_service.py`, parameterised by the collaborator
behaviours.  Returns the emitted events and either the
`(resume_data, pdf_path)` pair the Python function returns or the
exception it raises. -/
def optimize_to_one_page (env : Env) (resume_data : ResumeData)
    (output_name : String) (max_iterations : Nat) (verbose : Bool) :
    List Event × Except OptError (ResumeData × String) :=
  optimizeLoop env output_name max_iterations verbose max_iterations 0 resume_data

/-- Number of renderer invocations recorded in a trace. -/
def countRender (tr : List Event) : Nat :=
  tr.countP (fun ev => match ev with | Event.renderCall _ _ => true | _ => false)

/-- Number of AI-reducer invocations recorded in a trace. -/
def countAi (tr : List Event) : Nat :=
  tr.countP (fun ev => match ev with | Event.aiCall _ _ => true | _ => false)

/-- Number of heuristic-fallback applications recorded in a trace. -/
def countHeuristic (tr : List Event) : Nat :=
  tr.countP (fun ev => match ev with | Event.heuristicCall _ => true | _ => false)

/-- Number of final-pdf persistence events (success path only). -/
def countWritePdf (tr : List Event) : Nat :=
  tr.countP (fun ev => match ev with | Event.writePdf _ => true | _ => false)

/-- The sequence of documents passed to the renderer, in call order. -/
def renderDocs (tr : List Event) : List ResumeData :=
  tr.filterMap (fun ev => match ev with
    | Event.renderCall d _ => some d
    | _ => none)

/-- The sequence of artifact names passed to the renderer, in call order. -/
def renderNames (tr : List Event) : List String :=
  tr.filterMap (fun ev => match ev with
    | Event.renderCall _ n => some n
    | _ => none)

/-- The names under which a final pdf artifact was persisted (the success
path's copy to `pdfs_dir / f"{output_name}.pdf"`). -/
def writePdfNames (tr : List Event) : List String :=
  tr.filterMap (fun ev => match ev with
    | Event.writePdf n => some n
    | _ => none)

/-- The names under which a final tex artifact was persisted. -/
def writeTexNames (tr : List Event) : List String :=
  tr.filterMap (fun ev => match ev with
    | Event.writeTex n => some n
    | _ => none)

/-! ### The four reduction steps as the specification words them (§4.2) -/

/-- Spec step 1: truncate `projects` to at most the first 2 entries. -/
def specTruncateProjects (r : ResumeData) : ResumeData :=
  { r with projects := r.projects.take 2 }

/-- Spec step 2: truncate every experience entry's bullets to at most the
first 3. -/
def specTruncateExperienceBullets (r : ResumeData) : ResumeData :=
  { r with experience :=
      r.experience.map (fun e => { e with bullets := e.bullets.take 3 }) }

/-- Spec step 3: truncate every remaining project's bullets to at most the
first 2. -/
def specTruncateProjectBullets (r : ResumeData) : ResumeData :=
  { r with projects :=
      r.projects.map (fun p => { p with bullets := p.bullets.take 2 }) }

/-- Spec step 4: clear GPA and additional notes on every education entry
except the first. -/
def specClearOlderEducation (r : ResumeData) : ResumeData :=
  { r with education :=
      match r.education with
      | [] => []
      | e0 :: rest =>
          e0 :: rest.map (fun edu => { edu with gpa := none, additional_info := none }) }

/-- The bounds that the heuristic reducer drives a document into: at most 2
projects, at most 3 bullets per experience entry, at most 2 bullets per
project, and cleared GPA/notes on every education entry after the first. -/
def withinBounds (r : ResumeData) : Prop :=
  r.projects.length ≤ 2 ∧
  (∀ e ∈ r.experience, e.bullets.length ≤ 3) ∧
  (∀ p ∈ r.projects, p.bullets.length ≤ 2) ∧
  (∀ ed ∈ r.education.tail, ed.gpa = none ∧ ed.additional_info = none)

instance (r : ResumeData) : Decidable (withinBounds r) := by
  unfold withinBounds; infer_instance

/-- The non-message events of a trace: everything except `click.echo`
output.  Used to state that `verbose` influences only the printed
messages. -/
def nonEcho (tr : List Event) : List Event :=
  tr.filter (fun ev => match ev with | Event.echoMsg _ => false | _ => true)

/-- One admissible transition between the documents of two consecutive
renderer invocations: the later document is the heuristic reduction of the
earlier one, a successful AI reduction of it, or the earlier document
unchanged (the final best-effort render re-renders the last working
document). -/
def docStep (env : Env) (a b : ResumeData) : Prop :=
  b = manual_content_reduction a ∨
  (∃ i p, env.suggest i a p = Except.ok b) ∨
  b = a

/-! ### Concrete data for witnesses and counterexamples -/

/-- A small valid resume, already within the heuristic reduction bounds. -/
def sampleResume : ResumeData :=
  { personal_info :=
      { name := "Ada Smith", email := "ada@example.com", phone := "0123456789",
        linkedin := none, github := none, location := none },
    education :=
      [{ institution := "State University", location := "Springfield",
         degree := "BS Computer Science", dates := "2016 - 2020",
         gpa := some "3.9", additional_info := none }],
    experience :=
      [{ title := "Engineer", company := "Acme", location := "Springfield",
         dates := "2020 - Present", bullets := ["built the widget"] }],
    projects := [],
    skills := [("Languages", ["Python"])] }

/-- A resume exceeding every heuristic reduction bound. -/
def oversizedResume : ResumeData :=
  { personal_info :=
      { name := "Ada Smith", email := "ada@example.com", phone := "0123456789",
        linkedin := none, github := none, location := none },
    education :=
      [{ institution := "State University", location := "Springfield",
         degree := "BS Computer Science", dates := "2016 - 2020",
         gpa := some "3.9", additional_info := none },
       { institution := "Central High", location := "Springfield",
         degree := "Diploma", dates := "2012 - 2016",
         gpa := some "3.5", additional_info := some ["honors"] }],
    experience :=
      [{ title := "Engineer", company := "Acme", location := "Springfield",
         dates := "2020 - Present",
         bullets := ["b1", "b2", "b3", "b4", "b5"] }],
    projects :=
      [{ name := "P1", technologies := "Python", date := "2021",
         bullets := ["p1", "p2", "p3"] },
       { name := "P2", technologies := "Rust", date := "2022",
         bullets := ["q1", "q2", "q3"] },
       { name := "P3", technologies := "Go", date := "2023",
         bullets := ["r1"] }],
    skills := [("Languages", ["Python"])] }

/-- Collaborators: every render reports 2 pages, the AI reducer always
raises. -/
def envTwoPagesAiDown : Env :=
  { render := fun _ _ => Except.ok 2,
    suggest := fun _ _ _ => Except.error "api down" }

/-- Collaborators: every render reports 1 page. -/
def envOnePage : Env :=
  { render := fun _ _ => Except.ok 1,
    suggest := fun _ _ _ => Except.error "api down" }

/-- Collaborators: every render raises. -/
def envRenderDown : Env :=
  { render := fun _ _ => Except.error "pdflatex is not installed or not in PATH",
    suggest := fun _ _ _ => Except.error "api down" }

/-- Collaborators: the render of the second attempt artifact raises, every
other render reports 2 pages; the AI reducer succeeds (returning the
document unchanged). -/
def envSecondRenderFails : Env :=
  { render := fun _ n =>
      if n = "resume_attempt_2" then Except.error "boom" else Except.ok 2,
    suggest := fun _ d _ => Except.ok d }

/-- Collaborators: every render reports 2 pages, the AI reducer always
succeeds (returning the document unchanged). -/
def envTwoPagesAiOk : Env :=
  { render := fun _ _ => Except.ok 2,
    suggest := fun _ d _ => Except.ok d }

/-! ### Basic facts about the heuristic reducer -/

theorem map_id_of_mem {α : Type} (l : List α) (f : α → α) (h : ∀ x ∈ l, f x = x) :
    l.map f = l := by
  conv_rhs => rw [show l = l.map id from (List.map_id l).symm]
  exact List.map_congr_left h

theorem take_if_length {α : Type} (l : List α) (n : Nat) :
    (if l.length > n then l.take n else l) = l.take n := by
  by_cases h : l.length > n
  · simp [h]
  · simp only [h, if_false]
    exact (List.take_of_length_le (le_of_not_lt h)).symm

theorem manual_personal_info (r : ResumeData) :
    (manual_content_reduction r).personal_info = r.personal_info := rfl

theorem manual_skills (r : ResumeData) :
    (manual_content_reduction r).skills = r.skills := rfl

theorem manual_projects (r : ResumeData) :
    (manual_content_reduction r).projects =
      (if r.projects.length > 2 then r.projects.take 2 else r.projects).map
        (fun proj => if proj.bullets.length > 2
          then { proj with bullets := proj.bullets.take 2 } else proj) := rfl

theorem manual_experience (r : ResumeData) :
    (manual_content_reduction r).experience =
      r.experience.map (fun exp => if exp.bullets.length > 3
        then { exp with bullets := exp.bullets.take 3 } else exp) := rfl

theorem manual_education (r : ResumeData) :
    (manual_content_reduction r).education =
      if r.education.length > 1 then
        match r.education with
        | [] => []
        | e0 :: rest =>
            e0 :: rest.map (fun edu => { edu with gpa := none, additional_info := none })
      else r.education := rfl

theorem exp_clamp_eq (exp : Experience) :
    (if exp.bullets.length > 3 then { exp with bullets := exp.bullets.take 3 } else exp) =
      { exp with bullets := exp.bullets.take 3 } := by
  by_cases h : exp.bullets.length > 3
  · simp [h]
  · simp only [h, if_false]
    cases exp
    simp [List.take_of_length_le (le_of_not_lt h)]

theorem proj_clamp_eq (proj : Project) :
    (if proj.bullets.length > 2 then { proj with bullets := proj.bullets.take 2 } else proj) =
      { proj with bullets := proj.bullets.take 2 } := by
  by_cases h : proj.bullets.length > 2
  · simp [h]
  · simp only [h, if_false]
    cases proj
    simp [List.take_of_length_le (le_of_not_lt h)]

theorem manual_education_eq (r : ResumeData) :
    (manual_content_reduction r).education =
      match r.education with
      | [] => []
      | e0 :: rest =>
          e0 :: rest.map (fun edu => { edu with gpa := none, additional_info := none }) := by
  rw [manual_education]
  by_cases h : r.education.length > 1
  · simp [h]
  · simp only [h, if_false]
    match hm : r.education with
    | [] => rfl
    | [e0] => rfl
    | e0 :: e1 :: rest => rw [hm] at h; simp at h

theorem ResumeData.ext_eq {a b : ResumeData}
    (h1 : a.personal_info = b.personal_info) (h2 : a.education = b.education)
    (h3 : a.experience = b.experience) (h4 : a.projects = b.projects)
    (h5 : a.skills = b.skills) : a = b := by
  cases a; cases b
  simp only at h1 h2 h3 h4 h5
  subst h1; subst h2; subst h3; subst h4; subst h5
  rfl

/-- C5: the heuristic reducer is exactly the composition, in source order,
of the four reduction steps as the specification words them: truncate
`projects` to 2 entries, then truncate each experience entry's bullets to
3, then truncate each remaining project's bullets to 2, then clear
GPA/notes on every education entry except the first (which is untouched). -/
theorem manual_reduction_is_spec_steps (r : ResumeData) :
    manual_content_reduction r =
      specClearOlderEducation (specTruncateProjectBullets
        (specTruncateExperienceBullets (specTruncateProjects r))) := by
  apply ResumeData.ext_eq
  · rfl
  · show (manual_content_reduction r).education =
      (match r.education with
       | [] => []
       | e0 :: rest =>
           e0 :: rest.map (fun edu => { edu with gpa := none, additional_info := none }))
    exact manual_education_eq r
  · show (manual_content_reduction r).experience =
      r.experience.map (fun e => { e with bullets := e.bullets.take 3 })
    rw [manual_experience]
    simp only [exp_clamp_eq]
  · show (manual_content_reduction r).projects =
      (r.projects.take 2).map (fun p => { p with bullets := p.bullets.take 2 })
    rw [manual_projects, take_if_length]
    simp only [proj_clamp_eq]
  · rfl

theorem manual_education_length (r : ResumeData) :
    (manual_content_reduction r).education.length = r.education.length := by
  rw [manual_education_eq]
  cases r.education with
  | nil => rfl
  | cons e0 rest => simp

theorem manual_education_head (r : ResumeData) :
    (manual_content_reduction r).education.head? = r.education.head? := by
  rw [manual_education_eq]
  cases r.education with
  | nil => rfl
  | cons e0 rest => rfl

theorem manual_withinBounds (r : ResumeData) :
    withinBounds (manual_content_reduction r) := by
  refine ⟨?_, ?_, ?_, ?_⟩
  · rw [manual_projects, take_if_length]
    simp [List.length_take]
  · rw [manual_experience]
    intro e he
    rcases List.mem_map.mp he with ⟨a, _, rfl⟩
    rw [exp_clamp_eq]
    simp [List.length_take]
  · rw [manual_projects]
    intro p hp
    rcases List.mem_map.mp hp with ⟨a, _, rfl⟩
    rw [proj_clamp_eq]
    simp [List.length_take]
  · rw [manual_education_eq]
    cases r.education with
    | nil => intro ed hed; simp at hed
    | cons e0 rest =>
        intro ed hed
        simp only [List.tail_cons] at hed
        rcases List.mem_map.mp hed with ⟨a, _, rfl⟩
        exact ⟨rfl, rfl⟩

theorem manual_of_withinBounds (r : ResumeData) (h : withinBounds r) :
    manual_content_reduction r = r := by
  obtain ⟨hproj, hexp, hpb, hedu⟩ := h
  apply ResumeData.ext_eq
  · rfl
  · rw [manual_education_eq]
    cases hE : r.education with
    | nil => rfl
    | cons e0 rest =>
        rw [hE] at hedu
        simp only [List.tail_cons] at hedu
        show e0 :: rest.map (fun edu => { edu with gpa := none, additional_info := none }) =
          e0 :: rest
        rw [map_id_of_mem rest _ (fun ed hed => ?_)]
        obtain ⟨h1, h2⟩ := hedu ed hed
        cases ed
        simp only at h1 h2
        simp [h1, h2]
  · rw [manual_experience]
    apply map_id_of_mem
    intro e he
    have : ¬ e.bullets.length > 3 := Nat.not_lt.mpr (hexp e he)
    simp [this]
  · rw [manual_projects]
    have : ¬ r.projects.length > 2 := Nat.not_lt.mpr hproj
    rw [if_neg this]
    apply map_id_of_mem
    intro p hp
    have : ¬ p.bullets.length > 2 := Nat.not_lt.mpr (hpb p hp)
    simp [this]
  · rfl

/-- C7: the heuristic reducer is idempotent, never grows the document
(education, experience and skills keep their lengths, projects and every
bullet list only shrink, pointwise), and is the identity on every document
already within the reduction bounds. -/
theorem manual_reduction_idempotent (r : ResumeData) :
    manual_content_reduction (manual_content_reduction r) = manual_content_reduction r ∧
    (manual_content_reduction r).education.length = r.education.length ∧
    (manual_content_reduction r).experience.length = r.experience.length ∧
    (manual_content_reduction r).projects.length ≤ r.projects.length ∧
    (manual_content_reduction r).skills = r.skills ∧
    (∀ (i : Nat) (e2 e1 : Experience), (manual_content_reduction r).experience[i]? = some e2 →
      r.experience[i]? = some e1 → e2.bullets.length ≤ e1.bullets.length) ∧
    (∀ (i : Nat) (p2 p1 : Project), (manual_content_reduction r).projects[i]? = some p2 →
      r.projects[i]? = some p1 → p2.bullets.length ≤ p1.bullets.length) ∧
    (withinBounds r → manual_content_reduction r = r) := by
  refine ⟨manual_of_withinBounds _ (manual_withinBounds r),
    manual_education_length r, ?_, ?_, rfl, ?_, ?_, manual_of_withinBounds r⟩
  · rw [manual_experience]; simp
  · rw [manual_projects, take_if_length]
    simp [List.length_take]
  · intro i e2 e1 h2 h1
    rw [manual_experience, List.getElem?_map, h1] at h2
    simp only [Option.map_some', Option.some.injEq] at h2
    subst h2
    rw [exp_clamp_eq]
    simp [List.length_take]
  · intro i p2 p1 h2 h1
    rw [manual_projects, take_if_length, List.getElem?_map, List.getElem?_take] at h2
    by_cases hi : i < 2
    · rw [if_pos hi, h1] at h2
      simp only [Option.map_some', Option.some.injEq] at h2
      subst h2
      rw [proj_clamp_eq]
      simp [List.length_take]
    · rw [if_neg hi] at h2
      simp at h2

/-- C6: on every document satisfying the structural invariants of
`ResumeData`, the heuristic reducer preserves them: education keeps its
length (never below 1) and its first entry (hence its GPA), no experience
or project bullet list is emptied, and the required scalar fields (the
personal-info block, each experience entry's title/company/location/dates,
each kept project's name/technologies/date, each education entry's
institution/location/degree/dates) are unchanged. -/
theorem manual_reduction_preserves_invariants (r : ResumeData)
    (h : structuralInvariants r) :
    structuralInvariants (manual_content_reduction r) ∧
    (manual_content_reduction r).education.length = r.education.length ∧
    (manual_content_reduction r).education.head? = r.education.head? ∧
    (manual_content_reduction r).personal_info = r.personal_info ∧
    (∀ (i : Nat), ((manual_content_reduction r).experience[i]?).map
        (fun e => (e.title, e.company, e.location, e.dates)) =
      (r.experience[i]?).map (fun e => (e.title, e.company, e.location, e.dates))) ∧
    (∀ (i : Nat) (p2 : Project), (manual_content_reduction r).projects[i]? = some p2 →
      ∃ p1, r.projects[i]? = some p1 ∧ p2.name = p1.name ∧
        p2.technologies = p1.technologies ∧ p2.date = p1.date) ∧
    (∀ (i : Nat), ((manual_content_reduction r).education[i]?).map
        (fun e => (e.institution, e.location, e.degree, e.dates)) =
      (r.education[i]?).map (fun e => (e.institution, e.location, e.degree, e.dates))) := by
  obtain ⟨hedu, hexp, hsk, hexpb, hprojb⟩ := h
  refine ⟨⟨?_, ?_, ?_, ?_, ?_⟩, manual_education_length r, manual_education_head r, rfl,
    ?_, ?_, ?_⟩
  · rw [manual_education_length]; exact hedu
  · rw [manual_experience]; simpa using hexp
  · rw [manual_skills]; exact hsk
  · rw [manual_experience]
    intro e he
    rcases List.mem_map.mp he with ⟨a, ha, rfl⟩
    rw [exp_clamp_eq]
    have := hexpb a ha
    simp only [List.length_take]
    omega
  · rw [manual_projects, take_if_length]
    intro p hp
    rcases List.mem_map.mp hp with ⟨a, ha, rfl⟩
    rw [proj_clamp_eq]
    have := hprojb a (List.mem_of_mem_take ha)
    simp only [List.length_take]
    omega
  · intro i
    rw [manual_experience, List.getElem?_map]
    cases hi : r.experience[i]? with
    | none => rfl
    | some e =>
        simp only [Option.map_some']
        rw [exp_clamp_eq]
  · intro i p2 h2
    rw [manual_projects, take_if_length, List.getElem?_map, List.getElem?_take] at h2
    by_cases hi : i < 2
    · rw [if_pos hi] at h2
      cases hp : r.projects[i]? with
      | none => rw [hp] at h2; simp at h2
      | some p1 =>
          rw [hp] at h2
          simp only [Option.map_some', Option.some.injEq] at h2
          subst h2
          rw [proj_clamp_eq]
          exact ⟨p1, rfl, rfl, rfl, rfl⟩
    · rw [if_neg hi] at h2
      simp at h2
  · intro i
    rw [manual_education_eq]
    cases hE : r.education with
    | nil => rfl
    | cons e0 rest =>
        cases i with
        | zero => simp
        | succ j =>
            simp only [List.getElem?_cons_succ, List.getElem?_map]
            cases rest[j]? with
            | none => rfl
            | some ed => simp

/-- Witness for C6 at a concrete input: an oversized resume satisfying the
structural invariants. -/
theorem manual_reduction_preserves_invariants_witness :
    structuralInvariants (manual_content_reduction oversizedResume) ∧
    (manual_content_reduction oversizedResume).education.length =
      oversizedResume.education.length ∧
    (manual_content_reduction oversizedResume).education.head? =
      oversizedResume.education.head? ∧
    (manual_content_reduction oversizedResume).personal_info =
      oversizedResume.personal_info ∧
    (∀ (i : Nat), ((manual_content_reduction oversizedResume).experience[i]?).map
        (fun e => (e.title, e.company, e.location, e.dates)) =
      (oversizedResume.experience[i]?).map
        (fun e => (e.title, e.company, e.location, e.dates))) ∧
    (∀ (i : Nat) (p2 : Project),
      (manual_content_reduction oversizedResume).projects[i]? = some p2 →
      ∃ p1, oversizedResume.projects[i]? = some p1 ∧ p2.name = p1.name ∧
        p2.technologies = p1.technologies ∧ p2.date = p1.date) ∧
    (∀ (i : Nat), ((manual_content_reduction oversizedResume).education[i]?).map
        (fun e => (e.institution, e.location, e.degree, e.dates)) =
      (oversizedResume.education[i]?).map
        (fun e => (e.institution, e.location, e.degree, e.dates))) :=
  manual_reduction_preserves_invariants oversizedResume (by decide)

/-- Witness for C7 at a concrete input: a resume already within the
reduction bounds is a fixpoint, and reducing twice equals reducing once. -/
theorem manual_reduction_idempotent_witness :
    manual_content_reduction (manual_content_reduction sampleResume) =
      manual_content_reduction sampleResume ∧
    manual_content_reduction sampleResume = sampleResume :=
  ⟨(manual_reduction_idempotent sampleResume).1,
   (manual_reduction_idempotent sampleResume).2.2.2.2.2.2.2 (by decide)⟩

/-! ### Trace algebra -/

@[simp] theorem countRender_append (a b : List Event) :
    countRender (a ++ b) = countRender a + countRender b := List.countP_append _ a b

@[simp] theorem countRender_nil : countRender [] = 0 := rfl

@[simp] theorem countAi_append (a b : List Event) :
    countAi (a ++ b) = countAi a + countAi b := List.countP_append _ a b

@[simp] theorem countAi_nil : countAi [] = 0 := rfl

@[simp] theorem countHeuristic_append (a b : List Event) :
    countHeuristic (a ++ b) = countHeuristic a + countHeuristic b := List.countP_append _ a b

@[simp] theorem countHeuristic_nil : countHeuristic [] = 0 := rfl

@[simp] theorem countWritePdf_append (a b : List Event) :
    countWritePdf (a ++ b) = countWritePdf a + countWritePdf b := List.countP_append _ a b

@[simp] theorem countWritePdf_nil : countWritePdf [] = 0 := rfl

@[simp] theorem countRender_cons_echoMsg (s : String) (tr : List Event) :
    countRender (Event.echoMsg s :: tr) = countRender tr := by
  simp [countRender, List.countP_cons]

@[simp] theorem countRender_cons_renderCall (d : ResumeData) (n : String) (tr : List Event) :
    countRender (Event.renderCall d n :: tr) = countRender tr + 1 := by
  simp [countRender, List.countP_cons]

@[simp] theorem countRender_cons_aiCall (d : ResumeData) (p : Nat) (tr : List Event) :
    countRender (Event.aiCall d p :: tr) = countRender tr := by
  simp [countRender, List.countP_cons]

@[simp] theorem countRender_cons_heuristicCall (d : ResumeData) (tr : List Event) :
    countRender (Event.heuristicCall d :: tr) = countRender tr := by
  simp [countRender, List.countP_cons]

@[simp] theorem countRender_cons_writePdf (n : String) (tr : List Event) :
    countRender (Event.writePdf n :: tr) = countRender tr := by
  simp [countRender, List.countP_cons]

@[simp] theorem countRender_cons_writeTex (n : String) (tr : List Event) :
    countRender (Event.writeTex n :: tr) = countRender tr := by
  simp [countRender, List.countP_cons]

@[simp] theorem countAi_cons_echoMsg (s : String) (tr : List Event) :
    countAi (Event.echoMsg s :: tr) = countAi tr := by
  simp [countAi, List.countP_cons]

@[simp] theorem countAi_cons_renderCall (d : ResumeData) (n : String) (tr : List Event) :
    countAi (Event.renderCall d n :: tr) = countAi tr := by
  simp [countAi, List.countP_cons]

@[simp] theorem countAi_cons_aiCall (d : ResumeData) (p : Nat) (tr : List Event) :
    countAi (Event.aiCall d p :: tr) = countAi tr + 1 := by
  simp [countAi, List.countP_cons]

@[simp] theorem countAi_cons_heuristicCall (d : ResumeData) (tr : List Event) :
    countAi (Event.heuristicCall d :: tr) = countAi tr := by
  simp [countAi, List.countP_cons]

@[simp] theorem countAi_cons_writePdf (n : String) (tr : List Event) :
    countAi (Event.writePdf n :: tr) = countAi tr := by
  simp [countAi, List.countP_cons]

@[simp] theorem countAi_cons_writeTex (n : String) (tr : List Event) :
    countAi (Event.writeTex n :: tr) = countAi tr := by
  simp [countAi, List.countP_cons]

@[simp] theorem countHeuristic_cons_echoMsg (s : String) (tr : List Event) :
    countHeuristic (Event.echoMsg s :: tr) = countHeuristic tr := by
  simp [countHeuristic, List.countP_cons]

@[simp] theorem countHeuristic_cons_renderCall (d : ResumeData) (n : String) (tr : List Event) :
    countHeuristic (Event.renderCall d n :: tr) = countHeuristic tr := by
  simp [countHeuristic, List.countP_cons]

@[simp] theorem countHeuristic_cons_aiCall (d : ResumeData) (p : Nat) (tr : List Event) :
    countHeuristic (Event.aiCall d p :: tr) = countHeuristic tr := by
  simp [countHeuristic, List.countP_cons]

@[simp] theorem countHeuristic_cons_heuristicCall (d : ResumeData) (tr : List Event) :
    countHeuristic (Event.heuristicCall d :: tr) = countHeuristic tr + 1 := by
  simp [countHeuristic, List.countP_cons]

@[simp] theorem countHeuristic_cons_writePdf (n : String) (tr : List Event) :
    countHeuristic (Event.writePdf n :: tr) = countHeuristic tr := by
  simp [countHeuristic, List.countP_cons]

@[simp] theorem countHeuristic_cons_writeTex (n : String) (tr : List Event) :
    countHeuristic (Event.writeTex n :: tr) = countHeuristic tr := by
  simp [countHeuristic, List.countP_cons]

@[simp] theorem countWritePdf_cons_echoMsg (s : String) (tr : List Event) :
    countWritePdf (Event.echoMsg s :: tr) = countWritePdf tr := by
  simp [countWritePdf, List.countP_cons]

@[simp] theorem countWritePdf_cons_renderCall (d : ResumeData) (n : String) (tr : List Event) :
    countWritePdf (Event.renderCall d n :: tr) = countWritePdf tr := by
  simp [countWritePdf, List.countP_cons]

@[simp] theorem countWritePdf_cons_aiCall (d : ResumeData) (p : Nat) (tr : List Event) :
    countWritePdf (Event.aiCall d p :: tr) = countWritePdf tr := by
  simp [countWritePdf, List.countP_cons]

@[simp] theorem countWritePdf_cons_heuristicCall (d : ResumeData) (tr : List Event) :
    countWritePdf (Event.heuristicCall d :: tr) = countWritePdf tr := by
  simp [countWritePdf, List.countP_cons]

@[simp] theorem countWritePdf_cons_writePdf (n : String) (tr : List Event) :
    countWritePdf (Event.writePdf n :: tr) = countWritePdf tr + 1 := by
  simp [countWritePdf, List.countP_cons]

@[simp] theorem countWritePdf_cons_writeTex (n : String) (tr : List Event) :
    countWritePdf (Event.writeTex n :: tr) = countWritePdf tr := by
  simp [countWritePdf, List.countP_cons]

@[simp] theorem renderNames_append (a b : List Event) :
    renderNames (a ++ b) = renderNames a ++ renderNames b := List.filterMap_append a b _

@[simp] theorem renderNames_nil : renderNames [] = [] := rfl

@[simp] theorem renderNames_cons_echoMsg (s : String) (tr : List Event) :
    renderNames (Event.echoMsg s :: tr) = renderNames tr := by
  simp [renderNames]

@[simp] theorem renderNames_cons_renderCall (d : ResumeData) (n : String) (tr : List Event) :
    renderNames (Event.renderCall d n :: tr) = n :: renderNames tr := by
  simp [renderNames]

@[simp] theorem renderNames_cons_aiCall (d : ResumeData) (p : Nat) (tr : List Event) :
    renderNames (Event.aiCall d p :: tr) = renderNames tr := by
  simp [renderNames]

@[simp] theorem renderNames_cons_heuristicCall (d : ResumeData) (tr : List Event) :
    renderNames (Event.heuristicCall d :: tr) = renderNames tr := by
  simp [renderNames]

@[simp] theorem renderNames_cons_writePdf (n : String) (tr : List Event) :
    renderNames (Event.writePdf n :: tr) = renderNames tr := by
  simp [renderNames]

@[simp] theorem renderNames_cons_writeTex (n : String) (tr : List Event) :
    renderNames (Event.writeTex n :: tr) = renderNames tr := by
  simp [renderNames]

@[simp] theorem renderDocs_append (a b : List Event) :
    renderDocs (a ++ b) = renderDocs a ++ renderDocs b := List.filterMap_append a b _

@[simp] theorem renderDocs_nil : renderDocs [] = [] := rfl

@[simp] theorem renderDocs_cons_echoMsg (s : String) (tr : List Event) :
    renderDocs (Event.echoMsg s :: tr) = renderDocs tr := by
  simp [renderDocs]

@[simp] theorem renderDocs_cons_renderCall (d : ResumeData) (n : String) (tr : List Event) :
    renderDocs (Event.renderCall d n :: tr) = d :: renderDocs tr := by
  simp [renderDocs]

@[simp] theorem renderDocs_cons_aiCall (d : ResumeData) (p : Nat) (tr : List Event) :
    renderDocs (Event.aiCall d p :: tr) = renderDocs tr := by
  simp [renderDocs]

@[simp] theorem renderDocs_cons_heuristicCall (d : ResumeData) (tr : List Event) :
    renderDocs (Event.heuristicCall d :: tr) = renderDocs tr := by
  simp [renderDocs]

@[simp] theorem renderDocs_cons_writePdf (n : String) (tr : List Event) :
    renderDocs (Event.writePdf n :: tr) = renderDocs tr := by
  simp [renderDocs]

@[simp] theorem renderDocs_cons_writeTex (n : String) (tr : List Event) :
    renderDocs (Event.writeTex n :: tr) = renderDocs tr := by
  simp [renderDocs]

@[simp] theorem countRender_echoIf (v : Bool) (m : List String) : countRender (echoIf v m) = 0 := by
  cases v
  · simp [echoIf]
  · simp only [echoIf, if_pos]
    induction m with
    | nil => simp
    | cons a l ihl => simp [ihl]

@[simp] theorem countAi_echoIf (v : Bool) (m : List String) : countAi (echoIf v m) = 0 := by
  cases v
  · simp [echoIf]
  · simp only [echoIf, if_pos]
    induction m with
    | nil => simp
    | cons a l ihl => simp [ihl]

@[simp] theorem countHeuristic_echoIf (v : Bool) (m : List String) : countHeuristic (echoIf v m) = 0 := by
  cases v
  · simp [echoIf]
  · simp only [echoIf, if_pos]
    induction m with
    | nil => simp
    | cons a l ihl => simp [ihl]

@[simp] theorem countWritePdf_echoIf (v : Bool) (m : List String) : countWritePdf (echoIf v m) = 0 := by
  cases v
  · simp [echoIf]
  · simp only [echoIf, if_pos]
    induction m with
    | nil => simp
    | cons a l ihl => simp [ihl]

@[simp] theorem renderNames_echoIf (v : Bool) (m : List String) : renderNames (echoIf v m) = [] := by
  cases v
  · simp [echoIf]
  · simp only [echoIf, if_pos]
    induction m with
    | nil => simp
    | cons a l ihl => simp [ihl]

@[simp] theorem renderDocs_echoIf (v : Bool) (m : List String) : renderDocs (echoIf v m) = [] := by
  cases v
  · simp [echoIf]
  · simp only [echoIf, if_pos]
    induction m with
    | nil => simp
    | cons a l ihl => simp [ihl]

theorem getLast_append_of_getLast {a b : List Event} {x : Event}
    (h : b.getLast? = some x) : (a ++ b).getLast? = some x := by
  rw [List.getLast?_append, h]
  rfl

theorem getLast_cons_of_getLast {a x : Event} {l : List Event}
    (h : l.getLast? = some x) : (a :: l).getLast? = some x := by
  simp [List.getLast?_cons, h]

theorem optimizeLoop_zero (env : Env) (out : String) (maxI : Nat) (v : Bool)
    (it0 : Nat) (cur : ResumeData) :
    optimizeLoop env out maxI v 0 it0 cur = bestEffortFinalize env out maxI v cur := rfl


/-! ### Runs whose renders always report more than one page -/

/-- On a run whose every render reports at least 2 pages, the loop exhausts
its budget and ends in best-effort finalization: the result is a normal
return carrying the plain-named pdf path, the render artifact names are the
attempt names followed by the plain `output_name`, the AI reducer is
attempted on every iteration but the last (`fuel - 1` times), the success
persist never happens, and the final event is the plain-named render of the
final working document. -/
theorem optimizeLoop_all_long (env : Env) (out : String) (maxI : Nat) (v : Bool)
    (hr : ∀ d n, ∃ p, env.render d n = Except.ok p ∧ 2 ≤ p) :
    ∀ fuel it0 cur, ∃ d',
      (optimizeLoop env out maxI v fuel it0 cur).2 = Except.ok (d', pdfPath out) ∧
      renderNames (optimizeLoop env out maxI v fuel it0 cur).1 =
        (List.range fuel).map (fun k => attemptName out (it0 + k + 1)) ++ [out] ∧
      countAi (optimizeLoop env out maxI v fuel it0 cur).1 = fuel - 1 ∧
      countWritePdf (optimizeLoop env out maxI v fuel it0 cur).1 = 0 ∧
      ((optimizeLoop env out maxI v fuel it0 cur).1).getLast? =
        some (Event.renderCall d' out) := by
  intro fuel
  induction fuel with
  | zero =>
      intro it0 cur
      obtain ⟨p, hok, _⟩ := hr cur out
      refine ⟨cur, ?_, ?_, ?_, ?_, ?_⟩ <;>
        simp [optimizeLoop_zero, bestEffortFinalize, hok, getLast_append_of_getLast]
  | succ fuel ih =>
      intro it0 cur
      obtain ⟨p, hok, hp⟩ := hr cur (attemptName out (it0 + 1))
      have hp1 : ¬ p = 1 := by omega
      have hp0 : ¬ p < 1 := by omega
      cases fuel with
      | zero =>
          obtain ⟨q, hok2, _⟩ := hr cur out
          refine ⟨cur, ?_, ?_, ?_, ?_, ?_⟩ <;>
            simp [optimizeLoop, bestEffortFinalize, hok, hok2, hp1, hp0,
              List.range_succ, List.getLast?_append, List.getLast?_cons]
      | succ f =>
          rcases hs : env.suggest (it0 + 1) cur p with e | reduced
          · obtain ⟨d', h1, h2, h3, h4, h5⟩ := ih (it0 + 1) (manual_content_reduction cur)
            refine ⟨d', ?_, ?_, ?_, ?_, ?_⟩
            · rw [optimizeLoop]
              simp [hok, hp1, hp0, hs, h1]
            · rw [optimizeLoop]
              simp [hok, hp1, hp0, hs, h2, List.range_succ_eq_map, List.map_map]
              intro k _
              congr 1
              omega
            · rw [optimizeLoop]
              simp [hok, hp1, hp0, hs, h3]
            · rw [optimizeLoop]
              simp [hok, hp1, hp0, hs, h4]
            · rw [optimizeLoop]
              simp [hok, hp1, hp0, hs, h5, getLast_append_of_getLast,
                getLast_cons_of_getLast, List.getLast?_append, List.getLast?_cons]
          · obtain ⟨d', h1, h2, h3, h4, h5⟩ := ih (it0 + 1) reduced
            refine ⟨d', ?_, ?_, ?_, ?_, ?_⟩
            · rw [optimizeLoop]
              simp [hok, hp1, hp0, hs, h1]
            · rw [optimizeLoop]
              simp [hok, hp1, hp0, hs, h2, List.range_succ_eq_map, List.map_map]
              intro k _
              congr 1
              omega
            · rw [optimizeLoop]
              simp [hok, hp1, hp0, hs, h3]
            · rw [optimizeLoop]
              simp [hok, hp1, hp0, hs, h4]
            · rw [optimizeLoop]
              simp [hok, hp1, hp0, hs, h5, getLast_append_of_getLast,
                getLast_cons_of_getLast, List.getLast?_append, List.getLast?_cons]

@[simp] theorem writePdfNames_append (a b : List Event) :
    writePdfNames (a ++ b) = writePdfNames a ++ writePdfNames b := List.filterMap_append a b _

@[simp] theorem writePdfNames_nil : writePdfNames [] = [] := rfl

@[simp] theorem writePdfNames_cons_echoMsg (s : String) (tr : List Event) :
    writePdfNames (Event.echoMsg s :: tr) = writePdfNames tr := by
  simp [writePdfNames]

@[simp] theorem writePdfNames_cons_renderCall (d : ResumeData) (n : String) (tr : List Event) :
    writePdfNames (Event.renderCall d n :: tr) = writePdfNames tr := by
  simp [writePdfNames]

@[simp] theorem writePdfNames_cons_aiCall (d : ResumeData) (p : Nat) (tr : List Event) :
    writePdfNames (Event.aiCall d p :: tr) = writePdfNames tr := by
  simp [writePdfNames]

@[simp] theorem writePdfNames_cons_heuristicCall (d : ResumeData) (tr : List Event) :
    writePdfNames (Event.heuristicCall d :: tr) = writePdfNames tr := by
  simp [writePdfNames]

@[simp] theorem writePdfNames_cons_writePdf (n : String) (tr : List Event) :
    writePdfNames (Event.writePdf n :: tr) = n :: writePdfNames tr := by
  simp [writePdfNames]

@[simp] theorem writePdfNames_cons_writeTex (n : String) (tr : List Event) :
    writePdfNames (Event.writeTex n :: tr) = writePdfNames tr := by
  simp [writePdfNames]

@[simp] theorem writePdfNames_echoIf (v : Bool) (m : List String) : writePdfNames (echoIf v m) = [] := by
  cases v
  · simp [echoIf]
  · simp only [echoIf, if_pos]
    induction m with
    | nil => simp
    | cons a l ihl => simp [ihl]

@[simp] theorem writeTexNames_append (a b : List Event) :
    writeTexNames (a ++ b) = writeTexNames a ++ writeTexNames b := List.filterMap_append a b _

@[simp] theorem writeTexNames_nil : writeTexNames [] = [] := rfl

@[simp] theorem writeTexNames_cons_echoMsg (s : String) (tr : List Event) :
    writeTexNames (Event.echoMsg s :: tr) = writeTexNames tr := by
  simp [writeTexNames]

@[simp] theorem writeTexNames_cons_renderCall (d : ResumeData) (n : String) (tr : List Event) :
    writeTexNames (Event.renderCall d n :: tr) = writeTexNames tr := by
  simp [writeTexNames]

@[simp] theorem writeTexNames_cons_aiCall (d : ResumeData) (p : Nat) (tr : List Event) :
    writeTexNames (Event.aiCall d p :: tr) = writeTexNames tr := by
  simp [writeTexNames]

@[simp] theorem writeTexNames_cons_heuristicCall (d : ResumeData) (tr : List Event) :
    writeTexNames (Event.heuristicCall d :: tr) = writeTexNames tr := by
  simp [writeTexNames]

@[simp] theorem writeTexNames_cons_writePdf (n : String) (tr : List Event) :
    writeTexNames (Event.writePdf n :: tr) = writeTexNames tr := by
  simp [writeTexNames]

@[simp] theorem writeTexNames_cons_writeTex (n : String) (tr : List Event) :
    writeTexNames (Event.writeTex n :: tr) = n :: writeTexNames tr := by
  simp [writeTexNames]

@[simp] theorem writeTexNames_echoIf (v : Bool) (m : List String) : writeTexNames (echoIf v m) = [] := by
  cases v
  · simp [echoIf]
  · simp only [echoIf, if_pos]
    induction m with
    | nil => simp
    | cons a l ihl => simp [ihl]

@[simp] theorem nonEcho_append (a b : List Event) :
    nonEcho (a ++ b) = nonEcho a ++ nonEcho b := List.filter_append a b

@[simp] theorem nonEcho_nil : nonEcho [] = [] := rfl

@[simp] theorem nonEcho_cons_echoMsg (s : String) (tr : List Event) :
    nonEcho (Event.echoMsg s :: tr) = nonEcho tr := rfl

@[simp] theorem nonEcho_cons_renderCall (d : ResumeData) (n : String) (tr : List Event) :
    nonEcho (Event.renderCall d n :: tr) = Event.renderCall d n :: nonEcho tr := rfl

@[simp] theorem nonEcho_cons_aiCall (d : ResumeData) (p : Nat) (tr : List Event) :
    nonEcho (Event.aiCall d p :: tr) = Event.aiCall d p :: nonEcho tr := rfl

@[simp] theorem nonEcho_cons_heuristicCall (d : ResumeData) (tr : List Event) :
    nonEcho (Event.heuristicCall d :: tr) = Event.heuristicCall d :: nonEcho tr := rfl

@[simp] theorem nonEcho_cons_writePdf (n : String) (tr : List Event) :
    nonEcho (Event.writePdf n :: tr) = Event.writePdf n :: nonEcho tr := rfl

@[simp] theorem nonEcho_cons_writeTex (n : String) (tr : List Event) :
    nonEcho (Event.writeTex n :: tr) = Event.writeTex n :: nonEcho tr := rfl

@[simp] theorem nonEcho_echoIf (v : Bool) (m : List String) : nonEcho (echoIf v m) = [] := by
  cases v
  · simp [echoIf]
  · simp only [echoIf, if_pos]
    induction m with
    | nil => simp
    | cons a l ihl => simp [ihl]

/-! ### Verbose flag does not influence the outcome -/

/-- The result and the non-message events of the loop are independent of
`verbose`: the flag gates only the `click.echo` calls. -/
theorem optimizeLoop_verbose_independent (env : Env) (out : String) (maxI : Nat)
    (v1 v2 : Bool) :
    ∀ fuel it0 cur,
      (optimizeLoop env out maxI v1 fuel it0 cur).2 =
        (optimizeLoop env out maxI v2 fuel it0 cur).2 ∧
      nonEcho (optimizeLoop env out maxI v1 fuel it0 cur).1 =
        nonEcho (optimizeLoop env out maxI v2 fuel it0 cur).1 := by
  intro fuel
  induction fuel with
  | zero =>
      intro it0 cur
      rcases hok : env.render cur out with e | p <;>
        simp [optimizeLoop_zero, bestEffortFinalize, hok]
  | succ fuel ih =>
      intro it0 cur
      rcases hok : env.render cur (attemptName out (it0 + 1)) with e | p
      · constructor <;> (rw [optimizeLoop]; conv_rhs => rw [optimizeLoop]) <;> simp [hok]
      · by_cases hp1 : p = 1
        · constructor <;> (rw [optimizeLoop]; conv_rhs => rw [optimizeLoop]) <;>
            simp [hok, hp1]
        · by_cases hp0 : p < 1
          · constructor <;> (rw [optimizeLoop]; conv_rhs => rw [optimizeLoop]) <;>
              simp [hok, hp1, hp0]
          · cases fuel with
            | zero =>
                rcases hok2 : env.render cur out with e2 | q <;>
                  (constructor <;> (rw [optimizeLoop]; conv_rhs => rw [optimizeLoop]) <;>
                    simp [hok, hp1, hp0, bestEffortFinalize, hok2])
            | succ f =>
                rcases hs : env.suggest (it0 + 1) cur p with e | reduced
                · obtain ⟨ihr, iht⟩ := ih (it0 + 1) (manual_content_reduction cur)
                  constructor <;> (rw [optimizeLoop]; conv_rhs => rw [optimizeLoop]) <;>
                    simp [hok, hp1, hp0, hs, ihr, iht]
                · obtain ⟨ihr, iht⟩ := ih (it0 + 1) reduced
                  constructor <;> (rw [optimizeLoop]; conv_rhs => rw [optimizeLoop]) <;>
                    simp [hok, hp1, hp0, hs, ihr, iht]

/-! ### Runs with the AI reducer fully unavailable -/

/-- When the AI reducer raises on every call and every render succeeds
with a positive page count, the loop never propagates the reducer's
exception: it returns normally, the final document is an iterate of the
deterministic heuristic applied to the starting document, and every AI
failure is followed by exactly one heuristic application. -/
theorem optimizeLoop_ai_down (env : Env) (out : String) (maxI : Nat) (v : Bool)
    (hfail : ∀ i dd p, ∃ e, env.suggest i dd p = Except.error e)
    (hr : ∀ dd n, ∃ p, env.render dd n = Except.ok p ∧ 1 ≤ p) :
    ∀ fuel it0 cur, ∃ k d',
      (k + 1 ≤ fuel ∨ k = 0) ∧
      d' = manual_content_reduction^[k] cur ∧
      (optimizeLoop env out maxI v fuel it0 cur).2 = Except.ok (d', pdfPath out) ∧
      countHeuristic (optimizeLoop env out maxI v fuel it0 cur).1 =
        countAi (optimizeLoop env out maxI v fuel it0 cur).1 := by
  intro fuel
  induction fuel with
  | zero =>
      intro it0 cur
      obtain ⟨p, hok, _⟩ := hr cur out
      exact ⟨0, cur, Or.inr rfl, rfl, by simp [optimizeLoop_zero, bestEffortFinalize, hok],
        by simp [optimizeLoop_zero, bestEffortFinalize, hok]⟩
  | succ fuel ih =>
      intro it0 cur
      obtain ⟨p, hok, hp⟩ := hr cur (attemptName out (it0 + 1))
      by_cases hp1 : p = 1
      · refine ⟨0, cur, Or.inr rfl, rfl, ?_, ?_⟩ <;>
          (rw [optimizeLoop]; simp [hok, hp1])
      · have hp0 : ¬ p < 1 := by omega
        cases fuel with
        | zero =>
            obtain ⟨q, hok2, _⟩ := hr cur out
            refine ⟨0, cur, Or.inr rfl, rfl, ?_, ?_⟩ <;>
              (rw [optimizeLoop]; simp [hok, hp1, hp0, bestEffortFinalize, hok2])
        | succ f =>
            obtain ⟨e, hs⟩ := hfail (it0 + 1) cur p
            obtain ⟨k, d', hk, hd, h1, h2⟩ := ih (it0 + 1) (manual_content_reduction cur)
            refine ⟨k + 1, d', ?_, ?_, ?_, ?_⟩
            · left; omega
            · rw [Function.iterate_succ_apply]; exact hd
            · rw [optimizeLoop]; simp [hok, hp1, hp0, hs, h1]
            · rw [optimizeLoop]; simp [hok, hp1, hp0, hs, h2]

/-! ### Runs with the AI reducer always succeeding -/

/-- When every AI reduction call succeeds, the heuristic fallback is never
applied. -/
theorem optimizeLoop_ai_ok_no_heuristic (env : Env) (out : String) (maxI : Nat)
    (v : Bool) (hok : ∀ i dd p, ∃ d2, env.suggest i dd p = Except.ok d2) :
    ∀ fuel it0 cur,
      countHeuristic (optimizeLoop env out maxI v fuel it0 cur).1 = 0 := by
  intro fuel
  induction fuel with
  | zero =>
      intro it0 cur
      rcases hr : env.render cur out with e | p <;>
        simp [optimizeLoop_zero, bestEffortFinalize, hr]
  | succ fuel ih =>
      intro it0 cur
      rcases hr : env.render cur (attemptName out (it0 + 1)) with e | p
      · rw [optimizeLoop]; simp [hr]
      · by_cases hp1 : p = 1
        · rw [optimizeLoop]; simp [hr, hp1]
        · by_cases hp0 : p < 1
          · rw [optimizeLoop]; simp [hr, hp1, hp0]
          · cases fuel with
            | zero =>
                rcases hr2 : env.render cur out with e2 | q <;>
                  (rw [optimizeLoop]; simp [hr, hp1, hp0, bestEffortFinalize, hr2])
            | succ f =>
                obtain ⟨d2, hs⟩ := hok (it0 + 1) cur p
                rw [optimizeLoop]
                simp [hr, hp1, hp0, hs, ih]

/-- In every run, each heuristic application is preceded by an AI attempt
in the same iteration, so the heuristic count never exceeds the AI count. -/
theorem optimizeLoop_heuristic_le_ai (env : Env) (out : String) (maxI : Nat)
    (v : Bool) :
    ∀ fuel it0 cur,
      countHeuristic (optimizeLoop env out maxI v fuel it0 cur).1 ≤
        countAi (optimizeLoop env out maxI v fuel it0 cur).1 := by
  intro fuel
  induction fuel with
  | zero =>
      intro it0 cur
      rcases hr : env.render cur out with e | p <;>
        simp [optimizeLoop_zero, bestEffortFinalize, hr]
  | succ fuel ih =>
      intro it0 cur
      rcases hr : env.render cur (attemptName out (it0 + 1)) with e | p
      · rw [optimizeLoop]; simp [hr]
      · by_cases hp1 : p = 1
        · rw [optimizeLoop]; simp [hr, hp1]
        · by_cases hp0 : p < 1
          · rw [optimizeLoop]; simp [hr, hp1, hp0]
          · cases fuel with
            | zero =>
                rcases hr2 : env.render cur out with e2 | q <;>
                  (rw [optimizeLoop]; simp [hr, hp1, hp0, bestEffortFinalize, hr2])
            | succ f =>
                rcases hs : env.suggest (it0 + 1) cur p with e | reduced
                · rw [optimizeLoop]
                  simp [hr, hp1, hp0, hs]
                  have := ih (it0 + 1) (manual_content_reduction cur)
                  omega
                · rw [optimizeLoop]
                  simp [hr, hp1, hp0, hs]
                  have := ih (it0 + 1) reduced
                  omega

/-! ### The chain of rendered documents -/

/-- The documents passed to the renderer form a chain under `docStep`: the
first rendered document is the loop's starting document, and each later one
is obtained from its predecessor by a heuristic reduction, a successful AI
reduction, or unchanged (the final best-effort render). -/
theorem optimizeLoop_renderDocs_chain (env : Env) (out : String) (maxI : Nat)
    (v : Bool) :
    ∀ fuel it0 cur,
      (renderDocs (optimizeLoop env out maxI v fuel it0 cur).1).head? = some cur ∧
      List.Chain' (docStep env) (renderDocs (optimizeLoop env out maxI v fuel it0 cur).1) := by
  intro fuel
  induction fuel with
  | zero =>
      intro it0 cur
      rcases hr : env.render cur out with e | p <;>
        simp [optimizeLoop_zero, bestEffortFinalize, hr]
  | succ fuel ih =>
      intro it0 cur
      rcases hr : env.render cur (attemptName out (it0 + 1)) with e | p
      · rw [optimizeLoop]; constructor <;> simp [hr]
      · by_cases hp1 : p = 1
        · rw [optimizeLoop]; constructor <;> simp [hr, hp1]
        · by_cases hp0 : p < 1
          · rw [optimizeLoop]; constructor <;> simp [hr, hp1, hp0]
          · cases fuel with
            | zero =>
                rcases hr2 : env.render cur out with e2 | q <;>
                  (rw [optimizeLoop]; constructor <;>
                    simp [hr, hp1, hp0, bestEffortFinalize, hr2, docStep])
            | succ f =>
                rcases hs : env.suggest (it0 + 1) cur p with e | reduced
                · obtain ⟨ihh, ihc⟩ := ih (it0 + 1) (manual_content_reduction cur)
                  rw [optimizeLoop]
                  constructor
                  · simp [hr, hp1, hp0, hs]
                  · simp only [hr, hp1, hp0, hs]
                    simp [List.chain'_cons', ihh, ihc, hr, hp1, hp0, hs]
                    exact Or.inl rfl
                · obtain ⟨ihh, ihc⟩ := ih (it0 + 1) reduced
                  rw [optimizeLoop]
                  constructor
                  · simp [hr, hp1, hp0, hs]
                  · simp only [hr, hp1, hp0, hs]
                    simp [List.chain'_cons', ihh, ihc, hr, hp1, hp0, hs]
                    exact Or.inr (Or.inl ⟨it0 + 1, p, hs⟩)

/-! ### A failing render ends the run at once, whatever the iteration -/

theorem renderCall_not_mem_echoIf (d : ResumeData) (n : String) (v : Bool)
    (m : List String) : Event.renderCall d n ∉ echoIf v m := by
  cases v
  · simp [echoIf]
  · simp [echoIf, List.mem_map]

theorem count_renderCall_echoIf (d : ResumeData) (n : String) (v : Bool)
    (m : List String) : (echoIf v m).count (Event.renderCall d n) = 0 :=
  List.count_eq_zero.mpr (renderCall_not_mem_echoIf d n v m)

/-- If any renderer invocation recorded in the loop's trace is one that
raises (and it is a loop render, i.e. not under the plain output name),
then the run ended at exactly that invocation: the wrapped
`OptimizationError` is the result, the failing render is the trace's last
event (nothing at all happens after the failure), that render was invoked
exactly once (never retried), every earlier iteration contributed exactly
one render and one AI attempt (`countAi + 1 = countRender`), and the
heuristic ran at most once per AI attempt. -/
theorem optimizeLoop_render_failure (env : Env) (out : String) (maxI : Nat)
    (v : Bool) (dd : ResumeData) (nn : String) (ee : String)
    (hfail : env.render dd nn = Except.error ee) (hnn : nn ≠ out) :
    ∀ fuel it0 cur,
      Event.renderCall dd nn ∈ (optimizeLoop env out maxI v fuel it0 cur).1 →
      (optimizeLoop env out maxI v fuel it0 cur).2 =
        Except.error (OptError.optimizationError ("Failed to compile LaTeX: " ++ ee)) ∧
      ((optimizeLoop env out maxI v fuel it0 cur).1).getLast? =
        some (Event.renderCall dd nn) ∧
      ((optimizeLoop env out maxI v fuel it0 cur).1).count (Event.renderCall dd nn) = 1 ∧
      countAi (optimizeLoop env out maxI v fuel it0 cur).1 + 1 =
        countRender (optimizeLoop env out maxI v fuel it0 cur).1 ∧
      countHeuristic (optimizeLoop env out maxI v fuel it0 cur).1 ≤
        countAi (optimizeLoop env out maxI v fuel it0 cur).1 := by
  intro fuel
  induction fuel with
  | zero =>
      intro it0 cur hmem
      exfalso
      rcases hr : env.render cur out with e | p <;>
        (rw [optimizeLoop_zero] at hmem;
         simp [bestEffortFinalize, hr, List.mem_append,
           renderCall_not_mem_echoIf, hnn] at hmem)
  | succ fuel ih =>
      intro it0 cur hmem
      rcases hok : env.render cur (attemptName out (it0 + 1)) with e | p
      · rw [optimizeLoop] at hmem
        simp only [hok, List.mem_append] at hmem
        have hev : Event.renderCall dd nn =
            Event.renderCall cur (attemptName out (it0 + 1)) := by
          rcases hmem with hmem | hmem
          · exact absurd hmem (renderCall_not_mem_echoIf dd nn v _)
          · simpa using hmem
        injection hev with h1 h2
        subst h1
        subst h2
        rw [hok] at hfail
        injection hfail with h3
        subst h3
        refine ⟨?_, ?_, ?_, ?_, ?_⟩ <;>
          (rw [optimizeLoop];
           simp [hok, getLast_append_of_getLast, List.count_append,
             count_renderCall_echoIf, List.count_cons_self])
      · have hne : Event.renderCall dd nn ≠
            Event.renderCall cur (attemptName out (it0 + 1)) := by
          intro h
          injection h with h1 h2
          subst h1
          subst h2
          rw [hok] at hfail
          exact Except.noConfusion hfail
        have hne' : Event.renderCall cur (attemptName out (it0 + 1)) ≠
            Event.renderCall dd nn := Ne.symm hne
        by_cases hp1 : p = 1
        · exfalso
          rw [optimizeLoop] at hmem
          simp [hok, hp1, List.mem_append, renderCall_not_mem_echoIf, hne] at hmem
        · by_cases hp0 : p < 1
          · exfalso
            rw [optimizeLoop] at hmem
            simp [hok, hp1, hp0, List.mem_append, renderCall_not_mem_echoIf, hne] at hmem
          · cases fuel with
            | zero =>
                exfalso
                rcases hr2 : env.render cur out with e2 | q <;>
                  (rw [optimizeLoop] at hmem;
                   simp [hok, hp1, hp0, bestEffortFinalize, hr2, List.mem_append,
                     renderCall_not_mem_echoIf, hne, hnn] at hmem)
            | succ f =>
                rcases hs : env.suggest (it0 + 1) cur p with e | reduced
                · have hmem2 : Event.renderCall dd nn ∈
                      (optimizeLoop env out maxI v (f + 1) (it0 + 1)
                        (manual_content_reduction cur)).1 := by
                    rw [optimizeLoop] at hmem
                    simp [hok, hp1, hp0, hs, List.mem_append,
                      renderCall_not_mem_echoIf, hne] at hmem
                    exact hmem
                  obtain ⟨g1, g2, g3, g4, g5⟩ := ih (it0 + 1) (manual_content_reduction cur) hmem2
                  refine ⟨?_, ?_, ?_, ?_, ?_⟩
                  · rw [optimizeLoop]; simp [hok, hp1, hp0, hs, g1]
                  · rw [optimizeLoop]
                    simp [hok, hp1, hp0, hs, g2, getLast_append_of_getLast,
                      getLast_cons_of_getLast, List.getLast?_append, List.getLast?_cons]
                  · rw [optimizeLoop]
                    simp [hok, hp1, hp0, hs, g3, List.count_append,
                      count_renderCall_echoIf, List.count_cons, beq_iff_eq, hne']
                  · rw [optimizeLoop]
                    simp [hok, hp1, hp0, hs]
                    omega
                  · rw [optimizeLoop]
                    simp [hok, hp1, hp0, hs]
                    omega
                · have hmem2 : Event.renderCall dd nn ∈
                      (optimizeLoop env out maxI v (f + 1) (it0 + 1) reduced).1 := by
                    rw [optimizeLoop] at hmem
                    simp [hok, hp1, hp0, hs, List.mem_append,
                      renderCall_not_mem_echoIf, hne] at hmem
                    exact hmem
                  obtain ⟨g1, g2, g3, g4, g5⟩ := ih (it0 + 1) reduced hmem2
                  refine ⟨?_, ?_, ?_, ?_, ?_⟩
                  · rw [optimizeLoop]; simp [hok, hp1, hp0, hs, g1]
                  · rw [optimizeLoop]
                    simp [hok, hp1, hp0, hs, g2, getLast_append_of_getLast,
                      getLast_cons_of_getLast, List.getLast?_append, List.getLast?_cons]
                  · rw [optimizeLoop]
                    simp [hok, hp1, hp0, hs, g3, List.count_append,
                      count_renderCall_echoIf, List.count_cons, beq_iff_eq, hne']
                  · rw [optimizeLoop]
                    simp [hok, hp1, hp0, hs]
                    omega
                  · rw [optimizeLoop]
                    simp [hok, hp1, hp0, hs]
                    omega

/-! ### The claims -/

/-- C1: for every valid document whose rendered page count stays greater
than 1, when `optimize_to_one_page` reaches its last allowed iteration
(any `max_iterations ≥ 1`, including 1) it performs no further reduction
(the AI reducer is attempted exactly `max_iterations - 1` times, so never
on the last iteration), renders the current document one final time under
the plain output name (the trace's last event), and returns normally: the
render artifact names are exactly the `max_iterations` attempt names
followed by the plain name (`iterationsUsed = maxIterations`), the
success-path persist never happens (`succeeded = false`), and no exception
is raised merely because the final page count is still greater than 1. -/
theorem optimize_exhausts_budget_returns_best_effort
    (env : Env) (d : ResumeData) (out : String) (maxI : Nat) (v : Bool)
    (hmax : 1 ≤ maxI)
    (hr : ∀ dd n, ∃ p, env.render dd n = Except.ok p ∧ 2 ≤ p) :
    ∃ d',
      (optimize_to_one_page env d out maxI v).2 = Except.ok (d', pdfPath out) ∧
      renderNames (optimize_to_one_page env d out maxI v).1 =
        (List.range maxI).map (fun k => attemptName out (k + 1)) ++ [out] ∧
      countAi (optimize_to_one_page env d out maxI v).1 = maxI - 1 ∧
      countWritePdf (optimize_to_one_page env d out maxI v).1 = 0 ∧
      ((optimize_to_one_page env d out maxI v).1).getLast? =
        some (Event.renderCall d' out) := by
  obtain ⟨d', h1, h2, h3, h4, h5⟩ := optimizeLoop_all_long env out maxI v hr maxI 0 d
  exact ⟨d', h1, by simpa using h2, h3, h4, h5⟩

/-- Witness for C1 at a concrete input: max budget 2, every render
reporting 2 pages, the AI reducer down. -/
theorem optimize_exhausts_budget_returns_best_effort_witness :
    ∃ d',
      (optimize_to_one_page envTwoPagesAiDown sampleResume "resume" 2 false).2 =
        Except.ok (d', pdfPath "resume") ∧
      renderNames (optimize_to_one_page envTwoPagesAiDown sampleResume "resume" 2 false).1 =
        (List.range 2).map (fun k => attemptName "resume" (k + 1)) ++ ["resume"] ∧
      countAi (optimize_to_one_page envTwoPagesAiDown sampleResume "resume" 2 false).1 = 2 - 1 ∧
      countWritePdf (optimize_to_one_page envTwoPagesAiDown sampleResume "resume" 2 false).1 = 0 ∧
      ((optimize_to_one_page envTwoPagesAiDown sampleResume "resume" 2 false).1).getLast? =
        some (Event.renderCall d' "resume") :=
  optimize_exhausts_budget_returns_best_effort envTwoPagesAiDown sampleResume "resume" 2 false
    (by decide) (fun _dd _n => ⟨2, rfl, by decide⟩)

/-- C2: for every valid document that the renderer always compiles to
exactly one page, `optimize_to_one_page` returns after exactly 1 iteration
(a single render, under the first attempt name), with the returned
document equal to the input document, no reduction attempted, and the pdf
and tex artifacts persisted exactly once, under the final output name with
no attempt suffix (`succeeded = true`). -/
theorem optimize_one_page_first_iteration
    (env : Env) (d : ResumeData) (out : String) (maxI : Nat) (v : Bool)
    (hmax : 1 ≤ maxI)
    (hr : ∀ n, env.render d n = Except.ok 1) :
    (optimize_to_one_page env d out maxI v).2 = Except.ok (d, pdfPath out) ∧
    countRender (optimize_to_one_page env d out maxI v).1 = 1 ∧
    renderNames (optimize_to_one_page env d out maxI v).1 = [attemptName out 1] ∧
    countAi (optimize_to_one_page env d out maxI v).1 = 0 ∧
    writePdfNames (optimize_to_one_page env d out maxI v).1 = [out] ∧
    writeTexNames (optimize_to_one_page env d out maxI v).1 = [out] := by
  obtain ⟨m, rfl⟩ : ∃ m, maxI = m + 1 := ⟨maxI - 1, by omega⟩
  unfold optimize_to_one_page
  rw [optimizeLoop]
  refine ⟨?_, ?_, ?_, ?_, ?_, ?_⟩ <;> simp [hr]

/-- Witness for C2 at a concrete input: every render reports 1 page. -/
theorem optimize_one_page_first_iteration_witness :
    (optimize_to_one_page envOnePage sampleResume "resume" 5 true).2 =
      Except.ok (sampleResume, pdfPath "resume") ∧
    countRender (optimize_to_one_page envOnePage sampleResume "resume" 5 true).1 = 1 ∧
    renderNames (optimize_to_one_page envOnePage sampleResume "resume" 5 true).1 =
      [attemptName "resume" 1] ∧
    countAi (optimize_to_one_page envOnePage sampleResume "resume" 5 true).1 = 0 ∧
    writePdfNames (optimize_to_one_page envOnePage sampleResume "resume" 5 true).1 =
      ["resume"] ∧
    writeTexNames (optimize_to_one_page envOnePage sampleResume "resume" 5 true).1 =
      ["resume"] :=
  optimize_one_page_first_iteration envOnePage sampleResume "resume" 5 true
    (by decide) (fun _n => rfl)

/-- C3: when the AI reducer raises on every call (and every render
succeeds with a positive page count), `optimize_to_one_page` never
propagates the reducer's exception: it returns normally, the returned
document is an iterate of the deterministic heuristic applied to the input
(at most `max_iterations - 1` applications), and every AI failure is
matched by exactly one heuristic application (the loop continues on the
heuristic fallback until it converges to one page or exhausts the
budget). -/
theorem optimize_ai_unavailable_recovers_with_heuristic
    (env : Env) (d : ResumeData) (out : String) (maxI : Nat) (v : Bool)
    (hmax : 1 ≤ maxI)
    (hfail : ∀ i dd p, ∃ e, env.suggest i dd p = Except.error e)
    (hr : ∀ dd n, ∃ p, env.render dd n = Except.ok p ∧ 1 ≤ p) :
    ∃ k d', k ≤ maxI - 1 ∧ d' = manual_content_reduction^[k] d ∧
      (optimize_to_one_page env d out maxI v).2 = Except.ok (d', pdfPath out) ∧
      countHeuristic (optimize_to_one_page env d out maxI v).1 =
        countAi (optimize_to_one_page env d out maxI v).1 := by
  obtain ⟨k, d', hk, hd, h1, h2⟩ := optimizeLoop_ai_down env out maxI v hfail hr maxI 0 d
  exact ⟨k, d', by omega, hd, h1, h2⟩

/-- Witness for C3 at a concrete input: every render reports 2 pages, the
AI reducer raises on every call. -/
theorem optimize_ai_unavailable_recovers_with_heuristic_witness :
    ∃ k d', k ≤ 2 - 1 ∧ d' = manual_content_reduction^[k] sampleResume ∧
      (optimize_to_one_page envTwoPagesAiDown sampleResume "resume" 2 false).2 =
        Except.ok (d', pdfPath "resume") ∧
      countHeuristic (optimize_to_one_page envTwoPagesAiDown sampleResume "resume" 2 false).1 =
        countAi (optimize_to_one_page envTwoPagesAiDown sampleResume "resume" 2 false).1 :=
  optimize_ai_unavailable_recovers_with_heuristic envTwoPagesAiDown sampleResume "resume" 2 false
    (by decide) (fun _i _dd _p => ⟨"api down", rfl⟩) (fun _dd _n => ⟨2, rfl, by decide⟩)

/-- C4 counterexample: with a renderer that succeeds on the first attempt
(2 pages) and raises on the second, and an AI reducer that succeeds, the
failure is propagated, but the reducer HAS been invoked earlier in the
same call — refuting the claim that a render failure on any iteration
implies the reducer was never invoked on that call. -/
theorem render_failure_midway_counterexample :
    (optimize_to_one_page envSecondRenderFails sampleResume "resume" 3 false).2 =
      Except.error (OptError.optimizationError "Failed to compile LaTeX: boom") ∧
    countAi (optimize_to_one_page envSecondRenderFails sampleResume "resume" 3 false).1 = 1 := by
  constructor <;> rfl

/-- C4 amended: if the renderer raises on any iteration of the loop — i.e.
some renderer invocation in the run's trace, under a loop artifact name
(not the plain output name), is one on which the renderer raises — then
`optimize_to_one_page` propagates that failure to the caller immediately,
wrapped as `OptimizationError` with the renderer's diagnostic text
included: the failing render is the run's last event (nothing at all runs
after the failure, in particular no AI or heuristic reducer), that render
was invoked exactly once (never retried), and every completed earlier
iteration contributed exactly one render and one AI attempt
(`countAi + 1 = countRender`, `countHeuristic ≤ countAi`); hence when the
failure occurs on the first iteration (`countRender = 1`), no reducer was
ever invoked on that call. -/
theorem render_failure_any_iteration_propagates
    (env : Env) (d : ResumeData) (out : String) (maxI : Nat) (v : Bool)
    (dd : ResumeData) (nn : String) (ee : String)
    (hfail : env.render dd nn = Except.error ee)
    (hnn : nn ≠ out)
    (hmem : Event.renderCall dd nn ∈ (optimize_to_one_page env d out maxI v).1) :
    (optimize_to_one_page env d out maxI v).2 =
      Except.error (OptError.optimizationError ("Failed to compile LaTeX: " ++ ee)) ∧
    ((optimize_to_one_page env d out maxI v).1).getLast? =
      some (Event.renderCall dd nn) ∧
    ((optimize_to_one_page env d out maxI v).1).count (Event.renderCall dd nn) = 1 ∧
    countAi (optimize_to_one_page env d out maxI v).1 + 1 =
      countRender (optimize_to_one_page env d out maxI v).1 ∧
    countHeuristic (optimize_to_one_page env d out maxI v).1 ≤
      countAi (optimize_to_one_page env d out maxI v).1 :=
  optimizeLoop_render_failure env out maxI v dd nn ee hfail hnn maxI 0 d hmem

/-- Witness for the amended C4 at a concrete input: the second attempt's
render raises after a successful first iteration, so the failure occurs on
iteration 2. -/
theorem render_failure_any_iteration_propagates_witness :
    (optimize_to_one_page envSecondRenderFails sampleResume "resume" 3 false).2 =
      Except.error (OptError.optimizationError ("Failed to compile LaTeX: " ++ "boom")) ∧
    ((optimize_to_one_page envSecondRenderFails sampleResume "resume" 3 false).1).getLast? =
      some (Event.renderCall sampleResume "resume_attempt_2") ∧
    ((optimize_to_one_page envSecondRenderFails sampleResume "resume" 3 false).1).count
      (Event.renderCall sampleResume "resume_attempt_2") = 1 ∧
    countAi (optimize_to_one_page envSecondRenderFails sampleResume "resume" 3 false).1 + 1 =
      countRender (optimize_to_one_page envSecondRenderFails sampleResume "resume" 3 false).1 ∧
    countHeuristic (optimize_to_one_page envSecondRenderFails sampleResume "resume" 3 false).1 ≤
      countAi (optimize_to_one_page envSecondRenderFails sampleResume "resume" 3 false).1 :=
  render_failure_any_iteration_propagates envSecondRenderFails sampleResume "resume" 3 false
    sampleResume "resume_attempt_2" "boom" rfl (by decide) (by decide)

/-- C8 counterexample: `optimize_to_one_page` accepts no `useAI` flag (its
only parameters besides the document, output name and iteration budget are
`max_iterations` and `verbose`); on a run that needs reduction, the AI
reducer is attempted regardless of every flag the function does accept —
there is no setting under which the heuristic is applied directly without
attempting the AI reducer. -/
theorem no_useAI_flag_counterexample :
    countAi (optimize_to_one_page envTwoPagesAiOk sampleResume "resume" 2 true).1 = 1 ∧
    countAi (optimize_to_one_page envTwoPagesAiOk sampleResume "resume" 2 false).1 = 1 := by
  constructor <;> rfl

/-- C8 amended: the reduction step always attempts the AI reducer first —
the heuristic fallback never runs more often than the AI reducer is
attempted, and if every AI call succeeds the heuristic is never applied at
all (it runs only on AI failure). -/
theorem ai_always_attempted_heuristic_only_on_failure
    (env : Env) (d : ResumeData) (out : String) (maxI : Nat) (v : Bool) :
    countHeuristic (optimize_to_one_page env d out maxI v).1 ≤
      countAi (optimize_to_one_page env d out maxI v).1 ∧
    ((∀ i dd p, ∃ d2, env.suggest i dd p = Except.ok d2) →
      countHeuristic (optimize_to_one_page env d out maxI v).1 = 0) := by
  constructor
  · exact optimizeLoop_heuristic_le_ai env out maxI v maxI 0 d
  · intro hok
    exact optimizeLoop_ai_ok_no_heuristic env out maxI v hok maxI 0 d

/-- Witness for the amended C8 at a concrete input: the AI reducer always
succeeds, so the heuristic never runs. -/
theorem ai_always_attempted_heuristic_only_on_failure_witness :
    countHeuristic (optimize_to_one_page envTwoPagesAiOk sampleResume "resume" 2 true).1 ≤
      countAi (optimize_to_one_page envTwoPagesAiOk sampleResume "resume" 2 true).1 ∧
    countHeuristic (optimize_to_one_page envTwoPagesAiOk sampleResume "resume" 2 true).1 = 0 :=
  ⟨(ai_always_attempted_heuristic_only_on_failure envTwoPagesAiOk sampleResume "resume" 2 true).1,
   (ai_always_attempted_heuristic_only_on_failure envTwoPagesAiOk sampleResume "resume" 2 true).2
     (fun _i dd _p => ⟨dd, rfl⟩)⟩

/-- C9 counterexample: with a document already inside the heuristic
reduction bounds (so the heuristic is the identity), renders reporting 2
pages and the AI reducer down, three renderer invocations of the same call
all receive the identical working document — refuting the claim that no
two render invocations within the same call share an identical document. -/
theorem identical_renders_counterexample :
    renderDocs (optimize_to_one_page envTwoPagesAiDown sampleResume "resume" 2 false).1 =
      [sampleResume, sampleResume, sampleResume] := by
  rfl

/-- C9 amended: the sequence of documents passed to the renderer starts at
the input document and forms a chain in which each next document is the
heuristic reduction of its predecessor, a successful AI reduction of it,
or the unchanged predecessor (the heuristic is the identity on
already-reduced documents, and the final best-effort render reuses the
last working document): the optimizer only ever "retries" by passing the
working document through a reduction step, never after a render failure. -/
theorem renders_follow_reduction_chain
    (env : Env) (d : ResumeData) (out : String) (maxI : Nat) (v : Bool) :
    (renderDocs (optimize_to_one_page env d out maxI v).1).head? = some d ∧
    List.Chain' (docStep env) (renderDocs (optimize_to_one_page env d out maxI v).1) :=
  optimizeLoop_renderDocs_chain env out maxI v maxI 0 d

/-- C10: two runs of `optimize_to_one_page` that differ only in the
`verbose` flag produce the same returned `(document, pdf path)` result (or
the same exception) and the same non-message events; `verbose` influences
only the progress messages printed. -/
theorem verbose_influences_only_messages
    (env : Env) (d : ResumeData) (out : String) (maxI : Nat) (v1 v2 : Bool) :
    (optimize_to_one_page env d out maxI v1).2 =
      (optimize_to_one_page env d out maxI v2).2 ∧
    nonEcho (optimize_to_one_page env d out maxI v1).1 =
      nonEcho (optimize_to_one_page env d out maxI v2).1 :=
  optimizeLoop_verbose_independent env out maxI v1 v2 maxI 0 d

end ResumeOpt
